import Mathlib

/-
Verification of the multi-backend AI chat gateway in
clioraOps_cli/integrations/ai_provider.py.

Shallow embedding: each provider adapter is a pure function of its stored
credential state and of an oracle (the World) that fixes the outcome of every
network interaction the gateway could make during one call.  Exceptions that
Python would raise at the transport or JSON layer are modelled as explicit
outcome constructors, so a function that "never raises" is modelled as a total
Lean function over all outcomes, faults included.
-/

namespace ClioraOps

/-- The closed enumeration of backend kinds, mirroring AIProviderType. -/
inductive AIProviderType
  | gemini
  | ollama
  | openai
  | anthropic
  | local
deriving DecidableEq, Repr

/-- The wire value of each enum member, mirroring AIProviderType values. -/
def AIProviderType.value : AIProviderType → String
  | .gemini => "gemini"
  | .ollama => "ollama"
  | .openai => "openai"
  | .anthropic => "anthropic"
  | .local => "local"

/-- Standardized response envelope, mirroring the AIResponse dataclass. -/
structure AIResponse where
  success : Bool
  content : String
  provider : AIProviderType
  error : Option String := none
deriving DecidableEq, Repr

/-- One conversation message, mirroring the role/content dicts passed as context. -/
structure ChatMsg where
  role : String
  content : String
deriving DecidableEq, Repr

/-- Caller mode, mirroring core.modes.Mode as far as the gateway reads it. -/
inductive Mode
  | beginner
  | architect
deriving DecidableEq, Repr

/-- Stored state of GeminiProvider: api key and model name. -/
structure GeminiState where
  apiKey : Option String := none
  modelName : String := "gemini-2.0-flash"
deriving DecidableEq, Repr

/-- Stored state of OpenAIProvider. -/
structure OpenAIState where
  model : String := "gpt-4o"
  apiKey : Option String := none
deriving DecidableEq, Repr

/-- Stored state of AnthropicProvider. -/
structure AnthropicState where
  model : String := "claude-3-5-sonnet-20240620"
  apiKey : Option String := none
deriving DecidableEq, Repr

/-- Stored state of OllamaProvider: only the base url. -/
structure OllamaState where
  baseUrl : String := "http://localhost:11434"
deriving DecidableEq, Repr

/-- ASCII lowercasing of a name, mirroring the Python lower call on backend
names. -/
def pyLower (s : String) : String :=
  String.mk (s.data.map Char.toLower)

/-- Split a character list at the first occurrence of the separator, mirroring
the Python one-shot split; none when the separator does not occur. -/
def splitFirst (sep : Char) : List Char → Option (List Char × List Char)
  | [] => none
  | c :: cs =>
    if c = sep then some ([], cs)
    else
      match splitFirst sep cs with
      | none => none
      | some (pre, post) => some (c :: pre, post)

/-- GeminiProvider.setup: a key containing a pipe is split once into key and
model override; otherwise the whole string becomes the key. -/
def GeminiState.setup (st : GeminiState) (apiKey : String) : GeminiState :=
  match splitFirst '|' apiKey.data with
  | none => { st with apiKey := some apiKey }
  | some (k, rest) => { st with apiKey := some (String.mk k), modelName := String.mk rest }

/-- Outcome of one HTTP request: a response with a status code and a payload
abstraction, or a raised transport exception with its text. -/
inductive HttpOutcome (α : Type)
  | response (status : Nat) (payload : α)
  | exception (msg : String)

/-- Abstraction of a Gemini response body. extractedText is the text at
candidates[0].content.parts[0].text when that path exists. jsonErrorMessage is
the message at error.message when the body parses and has one; rawText is the
raw body text used as the fallback detail. -/
structure GeminiPayload where
  extractedText : Option String
  jsonErrorMessage : Option String
  rawText : String
deriving DecidableEq, Repr

/-- The dedicated 429 error text of GeminiProvider.chat. -/
def geminiQuotaError : String :=
  "Quota Exceeded. New keys take ~10m to activate.\n💡 **PRO TIP**: Install Ollama (https://ollama.com) for unlimited OFFLINE mentoring!"

/-- GeminiProvider.chat response classification. -/
def geminiChat (outcome : HttpOutcome GeminiPayload) : AIResponse :=
  match outcome with
  | .exception e => { success := false, content := "", provider := .gemini, error := some e }
  | .response status p =>
    if status == 200 then
      match p.extractedText with
      | some c => { success := true, content := c, provider := .gemini }
      | none =>
        { success := false, content := "", provider := .gemini,
          error := some "Unexpected API response structure" }
    else if status == 429 then
      { success := false, content := "", provider := .gemini, error := some geminiQuotaError }
    else
      { success := false, content := "", provider := .gemini,
        error := some ("HTTP " ++ toString status ++ ": " ++ (p.jsonErrorMessage.getD p.rawText)) }

/-- Abstraction of an OpenAI response body. extractedContent is the text at
choices[0].message.content when that path exists; extractionError is the text
of the KeyError or IndexError raised when it does not; rawText is the raw body
used in the generic error. -/
structure OpenAIPayload where
  extractedContent : Option String
  extractionError : String
  rawText : String
deriving DecidableEq, Repr

/-- OpenAIProvider.chat response classification.  On a 200 body without the
expected path, the lookup raises and the outer handler turns the exception
text into the error field. -/
def openaiChat (outcome : HttpOutcome OpenAIPayload) : AIResponse :=
  match outcome with
  | .exception e => { success := false, content := "", provider := .openai, error := some e }
  | .response status p =>
    if status == 200 then
      match p.extractedContent with
      | some c => { success := true, content := c, provider := .openai }
      | none => { success := false, content := "", provider := .openai, error := some p.extractionError }
    else
      { success := false, content := "", provider := .openai,
        error := some ("HTTP " ++ toString status ++ ": " ++ p.rawText) }

/-- Abstraction of an Anthropic response body, analogous to OpenAIPayload with
the path content[0].text. -/
structure AnthropicPayload where
  extractedText : Option String
  extractionError : String
  rawText : String
deriving DecidableEq, Repr

/-- AnthropicProvider.chat response classification. -/
def anthropicChat (outcome : HttpOutcome AnthropicPayload) : AIResponse :=
  match outcome with
  | .exception e => { success := false, content := "", provider := .anthropic, error := some e }
  | .response status p =>
    if status == 200 then
      match p.extractedText with
      | some c => { success := true, content := c, provider := .anthropic }
      | none =>
        { success := false, content := "", provider := .anthropic, error := some p.extractionError }
    else
      { success := false, content := "", provider := .anthropic,
        error := some ("HTTP " ++ toString status ++ ": " ++ p.rawText) }

/-- Abstraction of an Ollama chat response body. messageContent is the result
of looking up message.content with defaults (so a parsed body with missing
keys yields some empty string); none means the body failed to parse and the
json call raised, with jsonExcText the exception text. -/
structure OllamaPayload where
  messageContent : Option String
  jsonExcText : String
deriving DecidableEq, Repr

/-- OllamaProvider.chat response classification.  Non-200 statuses carry only
the status code in the error. -/
def ollamaChat (outcome : HttpOutcome OllamaPayload) : AIResponse :=
  match outcome with
  | .exception e => { success := false, content := "", provider := .ollama, error := some e }
  | .response status p =>
    if status == 200 then
      match p.messageContent with
      | some c => { success := true, content := c, provider := .ollama }
      | none => { success := false, content := "", provider := .ollama, error := some p.jsonExcText }
    else
      { success := false, content := "", provider := .ollama,
        error := some ("HTTP " ++ toString status) }

/-- Outcome of the Ollama availability probe GET of /api/tags: a response
whose models field is the parsed models list (none when the body fails to
parse and json raises), or a raised transport fault. -/
inductive ProbeOutcome
  | ok (status : Nat) (models : Option (List String))
  | fault (msg : String)

/-- OllamaProvider.is_available: requires status 200 and a non-empty models
list; every raised fault and every parse failure yields false. -/
def ollama_is_available (o : ProbeOutcome) : Bool :=
  match o with
  | .fault _ => false
  | .ok status models =>
    status == 200 && (match models with
      | some ms => decide (0 < ms.length)
      | none => false)

/-- LocalFallbackProvider.chat.  kb is the knowledge-base lookup, returning
either a response or a raised exception; the except branch still returns a
success envelope with canned content built from the first 100 characters of
the prompt. -/
def localFallbackChat (kb : String → String → Except String String)
    (prompt : String) (sysPrompt : String) : AIResponse :=
  let userPrompt :=
    match prompt.splitOn "USER INPUT:" with
    | [] => prompt
    | [_] => prompt
    | _ :: second :: _ => (second.trim.splitOn "\n").headD ""
  match kb userPrompt sysPrompt with
  | .ok r => { success := true, content := r, provider := .local }
  | .error _ =>
    { success := true,
      content := "I\x27m here to help! You asked: " ++ prompt.take 100 ++ "...\n\nConnect an AI brain for detailed responses: setup ai gemini YOUR_KEY",
      provider := .local }

/-- The network oracle for one gateway call: the outcome each provider would
observe if it issued its request, plus the Ollama availability probe outcome
and the local knowledge-base behaviour. -/
structure World where
  geminiHttp : HttpOutcome GeminiPayload
  openaiHttp : HttpOutcome OpenAIPayload
  anthropicHttp : HttpOutcome AnthropicPayload
  ollamaHttp : HttpOutcome OllamaPayload
  ollamaProbe : ProbeOutcome
  kb : String → String → Except String String

/-- Gateway state, mirroring AIClient: caller mode, the stored state of each
of the five adapters, and the active override (the pin). -/
structure AIClient where
  mode : Option Mode := none
  geminiSt : GeminiState := {}
  openaiSt : OpenAIState := {}
  anthropicSt : AnthropicState := {}
  ollamaSt : OllamaState := {}
  activeOverride : Option AIProviderType := none
deriving Repr

/-- Per-adapter availability.  The keyed cloud adapters only test that a key
is stored; Ollama runs the network probe; the local adapter is always
available. -/
def is_available (s : AIClient) (w : World) : AIProviderType → Bool
  | .gemini => s.geminiSt.apiKey.isSome
  | .openai => s.openaiSt.apiKey.isSome
  | .anthropic => s.anthropicSt.apiKey.isSome
  | .ollama => ollama_is_available w.ollamaProbe
  | .local => true

/-- The fixed construction order of the adapter list in AIClient. -/
def providersOrder : List AIProviderType :=
  [.gemini, .openai, .anthropic, .ollama, .local]

/-- Dispatch of one chat call to the adapter of the given kind. -/
def providerChat (w : World) (prompt sysPrompt : String) : AIProviderType → AIResponse
  | .gemini => geminiChat w.geminiHttp
  | .openai => openaiChat w.openaiHttp
  | .anthropic => anthropicChat w.anthropicHttp
  | .ollama => ollamaChat w.ollamaHttp
  | .local => localFallbackChat w.kb prompt sysPrompt

/-- Rendering of the envelope error field inside a Python f-string: a missing
error prints as the text None. -/
def pyStrOfError : Option String → String
  | some e => e
  | none => "None"

/-- AIClient._build_system_prompt. -/
def build_system_prompt (mode : Option Mode) : String :=
  match mode with
  | some .beginner => "You are a DevOps mentor for beginners."
  | _ => "You are a DevOps expert architect."

/-- The system prompt actually used: a missing or empty caller prompt is
replaced by the mode default, since Python tests falsiness. -/
def resolve_system_prompt (s : AIClient) (sysPrompt : Option String) : String :=
  match sysPrompt with
  | none => build_system_prompt s.mode
  | some sp => if sp == "" then build_system_prompt s.mode else sp

/-- The failure line accumulated for one failed provider. -/
def failureLine (w : World) (prompt sysPrompt : String) (p : AIProviderType) : String :=
  p.value ++ ": " ++ pyStrOfError (providerChat w prompt sysPrompt p).error

/-- The automatic-priority loop of AIClient.chat, instrumented with the list
of adapters whose chat method is invoked, in invocation order.  The base case
is the terminal local-fallback call, including the annotation added when
failures were accumulated. -/
def tryProvidersTrace (s : AIClient) (w : World) (prompt sysPrompt : String) :
    List AIProviderType → List String → AIResponse × List AIProviderType
  | [], failures =>
    let resp := localFallbackChat w.kb prompt sysPrompt
    let resp :=
      if failures.isEmpty then resp
      else { resp with content :=
        "(Local Fallback) " ++ resp.content ++ "\n\nNote: Cloud providers failed:\n- " ++
          String.intercalate "\n- " failures }
    (resp, [.local])
  | p :: rest, failures =>
    if is_available s w p && !(p == .local) then
      let r := providerChat w prompt sysPrompt p
      if r.success then (r, [p])
      else
        let next := tryProvidersTrace s w prompt sysPrompt rest
          (failures ++ [failureLine w prompt sysPrompt p])
        (next.1, p :: next.2)
    else tryProvidersTrace s w prompt sysPrompt rest failures

/-- AIClient.chat, instrumented with the invocation trace.  With an active
override whose adapter is available, that adapter is called and its envelope
returned verbatim; otherwise control falls through to the automatic loop. -/
def AIClient.chatTrace (s : AIClient) (w : World) (prompt : String)
    (context : List ChatMsg) (sysPrompt : Option String) : AIResponse × List AIProviderType :=
  let rsys := resolve_system_prompt s sysPrompt
  let _ := context
  match s.activeOverride with
  | some t =>
    if is_available s w t then (providerChat w prompt rsys t, [t])
    else tryProvidersTrace s w prompt rsys providersOrder []
  | none => tryProvidersTrace s w prompt rsys providersOrder []

/-- AIClient.chat: the returned envelope. -/
def AIClient.chat (s : AIClient) (w : World) (prompt : String)
    (context : List ChatMsg) (sysPrompt : Option String) : AIResponse :=
  (s.chatTrace w prompt context sysPrompt).1

/-- Name resolution used by switch and configure: the lowered string must be
one of the enum values. -/
def AIProviderType.ofString (name : String) : Option AIProviderType :=
  match pyLower name with
  | "gemini" => some .gemini
  | "ollama" => some .ollama
  | "openai" => some .openai
  | "anthropic" => some .anthropic
  | "local" => some .local
  | _ => none

/-- AIClient.switch_to_provider: pin the named adapter when it is available;
otherwise return false and change nothing.  An unknown name raises ValueError
in the enum constructor, caught and turned into false. -/
def AIClient.switch_to_provider (s : AIClient) (w : World) (name : String) : Bool × AIClient :=
  match AIProviderType.ofString name with
  | none => (false, s)
  | some t =>
    if is_available s w t then (true, { s with activeOverride := some t })
    else (false, s)

/-- Application of setup(key) to the adapter of the given kind.  The local
adapter stores nothing.  No field of the World is consulted. -/
def AIClient.setupProvider (s : AIClient) (t : AIProviderType) (key : String) : AIClient :=
  match t with
  | .gemini => { s with geminiSt := s.geminiSt.setup key }
  | .openai => { s with openaiSt := { s.openaiSt with apiKey := some key } }
  | .anthropic => { s with anthropicSt := { s.anthropicSt with apiKey := some key } }
  | .ollama => { s with ollamaSt := { s.ollamaSt with baseUrl := key } }
  | .local => s

/-- AIClient.configure_provider: apply the key via setup, then pin the adapter
and return true exactly when it is available afterwards.  The key stays stored
even when false is returned. -/
def AIClient.configure_provider (s : AIClient) (w : World) (name key : String) : Bool × AIClient :=
  match AIProviderType.ofString name with
  | none => (false, s)
  | some t =>
    let s2 := s.setupProvider t key
    if is_available s2 w t then (true, { s2 with activeOverride := some t })
    else (false, s2)

/-- AIClient.get_provider_status: the availability of every adapter, keyed by
its wire name, in construction order. -/
def AIClient.get_provider_status (s : AIClient) (w : World) : List (String × Bool) :=
  providersOrder.map (fun p => (p.value, is_available s w p))

/-- One gateway operation, for stating properties of operation sequences.
A chat call never assigns any attribute of the client, so its step is the
identity on the client state. -/
inductive Op
  | chatOp (w : World) (prompt : String) (context : List ChatMsg) (sysPrompt : Option String)
  | switchOp (w : World) (name : String)
  | configOp (w : World) (name key : String)

/-- State transition of one operation. -/
def stepClient (s : AIClient) : Op → AIClient
  | .chatOp _ _ _ _ => s
  | .switchOp w n => (s.switch_to_provider w n).2
  | .configOp w n k => (s.configure_provider w n k).2

/-- Run of a sequence of operations. -/
def runOps (s : AIClient) (ops : List Op) : AIClient :=
  ops.foldl stepClient s

/-- A world in which every network interaction faults and the knowledge base
answers with a fixed string. -/
def wAllDown : World :=
  { geminiHttp := .exception "connection refused"
    openaiHttp := .exception "connection refused"
    anthropicHttp := .exception "connection refused"
    ollamaHttp := .exception "connection refused"
    ollamaProbe := .fault "connection refused"
    kb := fun _ _ => .ok "KB answer" }

/-- A freshly constructed client with no keys in the environment. -/
def freshClient : AIClient := {}

/-- The status surface reports each adapter availability under its wire
name. -/
theorem status_lookup (s : AIClient) (w : World) (p : AIProviderType) :
    (s.get_provider_status w).lookup p.value = some (is_available s w p) := by
  cases p <;> rfl

/-- The offline adapter always returns a success envelope originating from
itself, whatever the knowledge base does. -/
theorem localFallbackChat_success (kb : String → String → Except String String)
    (prompt sys : String) :
    (localFallbackChat kb prompt sys).success = true
    ∧ (localFallbackChat kb prompt sys).provider = AIProviderType.local := by
  unfold localFallbackChat
  refine ⟨?_, ?_⟩ <;> (split <;> (dsimp only; split <;> rfl))

/-- C3: the claim reads every one of the three keyed cloud adapters as giving
HTTP 429 a dedicated rate-limit error, distinguishable from the generic
non-200 error text.  Counterexample: the OpenAI adapter classifies 429 through
the same generic branch as any other non-200 status, so its 429 error text is
exactly the generic format, identical in shape to the one produced for 500. -/
theorem openai_429_is_generic_counterexample :
    (openaiChat (HttpOutcome.response 429
      { extractedContent := none, extractionError := "e", rawText := "Too Many Requests" })).error
      = some ("HTTP " ++ toString 429 ++ ": " ++ "Too Many Requests")
    ∧ (openaiChat (HttpOutcome.response 500
      { extractedContent := none, extractionError := "e", rawText := "Too Many Requests" })).error
      = some ("HTTP " ++ toString 500 ++ ": " ++ "Too Many Requests")
    ∧ (anthropicChat (HttpOutcome.response 429
      { extractedText := none, extractionError := "e", rawText := "Too Many Requests" })).error
      = some ("HTTP " ++ toString 429 ++ ": " ++ "Too Many Requests") :=
  ⟨rfl, rfl, rfl⟩

set_option maxRecDepth 4096 in
/-- C3 amended: only the Gemini adapter returns a dedicated rate-limit error
on HTTP 429, and that error does not use the generic HTTP-status format; the
OpenAI and Anthropic adapters return the generic status-plus-body error text
for 429, exactly as for any other non-200 status. -/
theorem rate_limit_handling_per_adapter :
    (∀ p : GeminiPayload, geminiChat (HttpOutcome.response 429 p) =
      { success := false, content := "", provider := .gemini, error := some geminiQuotaError })
    ∧ List.isPrefixOf ("HTTP ".data) geminiQuotaError.data = false
    ∧ (∀ p : OpenAIPayload, (openaiChat (HttpOutcome.response 429 p)).error =
        some ("HTTP " ++ toString 429 ++ ": " ++ p.rawText))
    ∧ (∀ p : AnthropicPayload, (anthropicChat (HttpOutcome.response 429 p)).error =
        some ("HTTP " ++ toString 429 ++ ": " ++ p.rawText)) :=
  ⟨fun _ => rfl, by decide, fun _ => rfl, fun _ => rfl⟩

/-- C4: the claim reads every cloud adapter as returning the error text
"unexpected response structure" on a 200 response missing the expected
fields.  Counterexample: the OpenAI adapter lets the field lookup raise and
stores the raised exception text instead, here the KeyError text for the
missing choices key. -/
theorem openai_unexpected_payload_counterexample :
    (openaiChat (HttpOutcome.response 200
      { extractedContent := none, extractionError := "\x27choices\x27", rawText := "" })).success = false
    ∧ (openaiChat (HttpOutcome.response 200
      { extractedContent := none, extractionError := "\x27choices\x27", rawText := "" })).error
        = some "\x27choices\x27"
    ∧ (openaiChat (HttpOutcome.response 200
      { extractedContent := none, extractionError := "\x27choices\x27", rawText := "" })).error
        ≠ some "unexpected response structure" :=
  ⟨rfl, rfl, by decide⟩

/-- C4 amended: on a 200 response whose payload misses the expected fields,
the Gemini adapter returns a failure with error text
"Unexpected API response structure"; the OpenAI and Anthropic adapters return
a failure whose error is the raised extraction-exception text; the Ollama
adapter defaults the missing fields and returns a success envelope with the
defaulted content. -/
theorem unexpected_structure_per_adapter :
    (∀ j r, geminiChat (HttpOutcome.response 200
      { extractedText := none, jsonErrorMessage := j, rawText := r }) =
      { success := false, content := "", provider := .gemini,
        error := some "Unexpected API response structure" })
    ∧ (∀ e r, openaiChat (HttpOutcome.response 200
      { extractedContent := none, extractionError := e, rawText := r }) =
      { success := false, content := "", provider := .openai, error := some e })
    ∧ (∀ e r, anthropicChat (HttpOutcome.response 200
      { extractedText := none, extractionError := e, rawText := r }) =
      { success := false, content := "", provider := .anthropic, error := some e })
    ∧ (∀ c e, ollamaChat (HttpOutcome.response 200
      { messageContent := some c, jsonExcText := e }) =
      { success := true, content := c, provider := .ollama, error := none }) :=
  ⟨fun _ _ => rfl, fun _ _ => rfl, fun _ _ => rfl, fun _ _ => rfl⟩

/-- C9: the Ollama availability probe converts every raised transport fault
and every malformed probe body to false, and the status surface is a total
function that reports, for every adapter kind and every world including
faulty ones, exactly that adapter availability under its wire name. -/
theorem availability_probe_and_status_total :
    (∀ m, ollama_is_available (ProbeOutcome.fault m) = false)
    ∧ (∀ st, ollama_is_available (ProbeOutcome.ok st none) = false)
    ∧ (∀ (s : AIClient) (w : World) (p : AIProviderType),
        (s.get_provider_status w).lookup p.value = some (is_available s w p)) :=
  ⟨fun _ => rfl,
   fun st => by simp [ollama_is_available],
   fun s w p => status_lookup s w p⟩

/-- Availability reads only the adapter credential state and the world, never
the active override. -/
theorem is_available_override (s : AIClient) (w : World) (ov : Option AIProviderType)
    (p : AIProviderType) :
    is_available { s with activeOverride := ov } w p = is_available s w p := by
  cases p <;> rfl

/-- The automatic loop depends on the client only through adapter state, so
changing the active override does not change it. -/
theorem tryProviders_override_irrel (s : AIClient) (w : World) (prompt sys : String)
    (ov : Option AIProviderType) :
    ∀ (ps : List AIProviderType) (failures : List String),
      tryProvidersTrace { s with activeOverride := ov } w prompt sys ps failures
        = tryProvidersTrace s w prompt sys ps failures := by
  intro ps
  induction ps with
  | nil => intro failures; rfl
  | cons p rest ih =>
    intro failures
    simp only [tryProvidersTrace, is_available_override]
    by_cases h : (is_available s w p && !(p == AIProviderType.local)) = true
    · simp only [h, if_true]
      by_cases hs : (providerChat w prompt sys p).success = true
      · simp only [hs, if_true]
      · simp only [Bool.not_eq_true] at hs
        simp only [hs, if_false, ih]
    · simp only [Bool.not_eq_true] at h
      simp only [h, if_false]
      exact ih failures

/-- An unavailable non-local adapter is never invoked by the automatic loop. -/
theorem unavailable_not_in_trace (s : AIClient) (w : World) (prompt sys : String)
    (q : AIProviderType) (hq : is_available s w q = false) (hql : q ≠ AIProviderType.local) :
    ∀ (ps : List AIProviderType) (failures : List String),
      q ∉ (tryProvidersTrace s w prompt sys ps failures).2 := by
  intro ps
  induction ps with
  | nil =>
    intro failures
    simp only [tryProvidersTrace]
    simp [hql]
  | cons p rest ih =>
    intro failures
    have hqp : q ≠ p → is_available s w p = true → True := fun _ _ => trivial
    simp only [tryProvidersTrace]
    by_cases h : (is_available s w p && !(p == AIProviderType.local)) = true
    · have hav : is_available s w p = true := (Bool.and_eq_true _ _ |>.mp h).1
      have hne : q ≠ p := by
        intro he
        rw [he] at hq
        rw [hq] at hav
        exact Bool.false_ne_true hav
      simp only [h, if_true]
      by_cases hs : (providerChat w prompt sys p).success = true
      · simp only [hs, if_true]
        simp [hne]
      · simp only [Bool.not_eq_true] at hs
        simp only [hs, if_false]
        intro hmem
        rcases List.mem_cons.mp hmem with he | hm
        · exact hne he
        · exact ih _ hm
    · simp only [Bool.not_eq_true] at h
      simp only [h, if_false]
      exact ih failures

/-- Client pinned to Gemini while no Gemini key is stored. -/
def pinnedGeminiDown : AIClient := { activeOverride := some AIProviderType.gemini }

/-- C1 counterexample: with the override pinned to Gemini and no Gemini key
stored, chat does not return a Gemini failure envelope; with every other
adapter down it returns the offline success envelope, so the origin is the
local adapter and success is true, contradicting the claimed
success false with origin Gemini. -/
theorem pinned_unavailable_counterexample :
    (AIClient.chat pinnedGeminiDown wAllDown "hi" [] none).provider = AIProviderType.local
    ∧ (AIClient.chat pinnedGeminiDown wAllDown "hi" [] none).success = true :=
  ⟨rfl, rfl⟩

/-- C1 amended: pinned dispatch to an unavailable backend does not return that
backend failure envelope; the call falls through to exactly the automatic
dispatch result, and the pinned adapter itself is never invoked. -/
theorem pinned_unavailable_falls_through (s : AIClient) (w : World) (prompt : String)
    (context : List ChatMsg) (sysPrompt : Option String) (k : AIProviderType)
    (h1 : s.activeOverride = some k) (h2 : is_available s w k = false) :
    s.chatTrace w prompt context sysPrompt
      = AIClient.chatTrace { s with activeOverride := none } w prompt context sysPrompt
    ∧ k ∉ (s.chatTrace w prompt context sysPrompt).2 := by
  have hkl : k ≠ AIProviderType.local := by
    intro hk
    rw [hk] at h2
    have h2t : (true : Bool) = false := h2
    simp at h2t
  constructor
  · simp only [AIClient.chatTrace, h1, h2, if_false]
    exact (tryProviders_override_irrel s w prompt (resolve_system_prompt s sysPrompt)
      none providersOrder []).symm
  · simp only [AIClient.chatTrace, h1, h2, if_false]
    exact unavailable_not_in_trace s w prompt (resolve_system_prompt s sysPrompt)
      k h2 hkl providersOrder []

/-- Witness for the amended C1 theorem at the concrete pinned-but-keyless
client and the all-down world. -/
theorem pinned_unavailable_falls_through_witness :
    AIClient.chatTrace pinnedGeminiDown wAllDown "hi" [] none
      = AIClient.chatTrace { pinnedGeminiDown with activeOverride := none } wAllDown "hi" [] none
    ∧ AIProviderType.gemini ∉ (AIClient.chatTrace pinnedGeminiDown wAllDown "hi" [] none).2 :=
  pinned_unavailable_falls_through pinnedGeminiDown wAllDown "hi" [] none
    AIProviderType.gemini rfl rfl

/-- When every provider the loop may call fails at call time, the automatic
loop ends in the local fallback, whose envelope succeeds with local origin. -/
theorem tryProviders_all_fail (s : AIClient) (w : World) (prompt sys : String) :
    ∀ (ps : List AIProviderType) (failures : List String),
      (∀ p ∈ ps, p ≠ AIProviderType.local → is_available s w p = true →
        (providerChat w prompt sys p).success = false) →
      (tryProvidersTrace s w prompt sys ps failures).1.success = true
        ∧ (tryProvidersTrace s w prompt sys ps failures).1.provider = AIProviderType.local := by
  intro ps
  induction ps with
  | nil =>
    intro failures _
    simp only [tryProvidersTrace]
    by_cases hf : failures.isEmpty = true
    · simp only [hf, if_true]
      exact localFallbackChat_success w.kb prompt sys
    · simp only [Bool.not_eq_true] at hf
      simp only [hf, if_false]
      exact ⟨(localFallbackChat_success w.kb prompt sys).1,
        (localFallbackChat_success w.kb prompt sys).2⟩
  | cons p rest ih =>
    intro failures hall
    simp only [tryProvidersTrace]
    by_cases h : (is_available s w p && !(p == AIProviderType.local)) = true
    · have hav : is_available s w p = true := (Bool.and_eq_true _ _ |>.mp h).1
      have hpl : p ≠ AIProviderType.local := by
        intro he
        have := (Bool.and_eq_true _ _ |>.mp h).2
        rw [he] at this
        simp at this
      have hfail : (providerChat w prompt sys p).success = false :=
        hall p (List.mem_cons_self p rest) hpl hav
      simp only [h, if_true, hfail, if_false]
      exact ih _ (fun q hq => hall q (List.mem_cons_of_mem p hq))
    · simp only [Bool.not_eq_true] at h
      simp only [h, if_false]
      exact ih failures (fun q hq => hall q (List.mem_cons_of_mem p hq))

/-- C2: in automatic mode, when every non-offline adapter is unavailable or
returns a failure envelope, chat returns a success envelope originating from
the offline adapter, for any non-empty prompt; and the offline adapter chat
returns a success envelope on every input, even when the knowledge lookup
raises. -/
theorem automatic_all_fail_offline_success (s : AIClient) (w : World) (prompt : String)
    (context : List ChatMsg) (sysPrompt : Option String)
    (_hp : prompt ≠ "")
    (hov : s.activeOverride = none)
    (hall : ∀ p : AIProviderType, p ≠ AIProviderType.local →
      is_available s w p = false
        ∨ (providerChat w prompt (resolve_system_prompt s sysPrompt) p).success = false) :
    ((s.chat w prompt context sysPrompt).success = true
      ∧ (s.chat w prompt context sysPrompt).provider = AIProviderType.local)
    ∧ ∀ (kb : String → String → Except String String) (q sq : String),
        (localFallbackChat kb q sq).success = true := by
  constructor
  · simp only [AIClient.chat, AIClient.chatTrace, hov]
    exact tryProviders_all_fail s w prompt (resolve_system_prompt s sysPrompt)
      providersOrder []
      (fun p _ hpl hav =>
        (hall p hpl).elim (fun hu => absurd hav (by simp [hu])) id)
  · exact fun kb q sq => (localFallbackChat_success kb q sq).1

/-- Witness for the C2 theorem: a keyless client in the all-down world on the
non-empty prompt hi. -/
theorem automatic_all_fail_offline_success_witness :
    ("hi" : String) ≠ ""
    ∧ (((freshClient.chat wAllDown "hi" [] none).success = true
        ∧ (freshClient.chat wAllDown "hi" [] none).provider = AIProviderType.local)
      ∧ ∀ (kb : String → String → Except String String) (q sq : String),
          (localFallbackChat kb q sq).success = true) :=
  ⟨by decide,
   automatic_all_fail_offline_success freshClient wAllDown "hi" [] none (by decide) rfl
     (fun p hpl => by
       cases p
       · exact Or.inl rfl
       · exact Or.inl rfl
       · exact Or.inl rfl
       · exact Or.inl rfl
       · exact absurd rfl hpl)⟩

/-- Structure of the automatic-loop trace: it is never empty, it follows the
filtered priority order terminated by the local fallback, every invoked
adapter except the last returned a failure, and at most one invoked adapter
succeeded. -/
theorem tryProviders_trace_structure (s : AIClient) (w : World) (prompt sys : String) :
    ∀ (ps : List AIProviderType) (failures : List String),
      (tryProvidersTrace s w prompt sys ps failures).2 ≠ []
      ∧ List.Sublist (tryProvidersTrace s w prompt sys ps failures).2
          ((ps.filter (fun p => is_available s w p && !(p == AIProviderType.local)))
            ++ [AIProviderType.local])
      ∧ (∀ p ∈ (tryProvidersTrace s w prompt sys ps failures).2.dropLast,
          (providerChat w prompt sys p).success = false)
      ∧ (tryProvidersTrace s w prompt sys ps failures).2.countP
          (fun p => (providerChat w prompt sys p).success) ≤ 1 := by
  intro ps
  induction ps with
  | nil =>
    intro failures
    refine ⟨by simp [tryProvidersTrace], ?_, ?_, ?_⟩
    · simp [tryProvidersTrace]
    · simp [tryProvidersTrace]
    · simp only [tryProvidersTrace]
      simp [List.countP_cons]
      split <;> simp
  | cons p rest ih =>
    intro failures
    simp only [tryProvidersTrace, List.filter_cons]
    by_cases h : (is_available s w p && !(p == AIProviderType.local)) = true
    · simp only [h, if_true]
      by_cases hs : (providerChat w prompt sys p).success = true
      · simp only [hs, if_true]
        refine ⟨by simp, ?_, by simp, ?_⟩
        · exact (List.singleton_sublist.mpr (List.mem_cons_self _ _))
        · simp [List.countP_cons, hs]
      · simp only [Bool.not_eq_true] at hs
        simp only [hs, Bool.false_eq_true, if_false]
        obtain ⟨hne, hsub, hdrop, hcount⟩ := ih (failures ++ [failureLine w prompt sys p])
        refine ⟨by simp, ?_, ?_, ?_⟩
        · exact List.Sublist.cons₂ p hsub
        · intro q hq
          rw [List.dropLast_cons_of_ne_nil hne] at hq
          rcases List.mem_cons.mp hq with he | hm
          · rw [he]; exact hs
          · exact hdrop q hm
        · rw [List.countP_cons]
          simp only [hs]
          simpa using hcount
    · simp only [Bool.not_eq_true] at h
      simp only [h, if_false]
      exact ih failures

/-- C7: in automatic mode the gateway tries adapters in the fixed priority
order (the invocation trace is a sublist of the construction order), every
invoked adapter except the last one failed, and at most one invocation
succeeded, so the loop short-circuits on the first success. -/
theorem automatic_short_circuit (s : AIClient) (w : World) (prompt : String)
    (context : List ChatMsg) (sysPrompt : Option String)
    (hov : s.activeOverride = none) :
    List.Sublist (s.chatTrace w prompt context sysPrompt).2 providersOrder
    ∧ (∀ p ∈ (s.chatTrace w prompt context sysPrompt).2.dropLast,
        (providerChat w prompt (resolve_system_prompt s sysPrompt) p).success = false)
    ∧ (s.chatTrace w prompt context sysPrompt).2.countP
        (fun p => (providerChat w prompt (resolve_system_prompt s sysPrompt) p).success) ≤ 1 := by
  simp only [AIClient.chatTrace, hov]
  obtain ⟨_, hsub, hdrop, hcount⟩ :=
    tryProviders_trace_structure s w prompt (resolve_system_prompt s sysPrompt)
      providersOrder []
  refine ⟨?_, hdrop, hcount⟩
  refine hsub.trans ?_
  have hfl : (providersOrder.filter
      (fun p => is_available s w p && !(p == AIProviderType.local)))
        ++ [AIProviderType.local]
      = (providersOrder.filter (fun p => !(p == AIProviderType.local))).filter
          (fun p => is_available s w p) ++ [AIProviderType.local] := by
    rw [List.filter_filter]
  rw [hfl]
  have hmid : List.Sublist ((providersOrder.filter
      (fun p => !(p == AIProviderType.local))).filter (fun p => is_available s w p))
      [AIProviderType.gemini, AIProviderType.openai, AIProviderType.anthropic,
        AIProviderType.ollama] := by
    have h1 : providersOrder.filter (fun p => !(p == AIProviderType.local))
        = [AIProviderType.gemini, AIProviderType.openai, AIProviderType.anthropic,
            AIProviderType.ollama] := by decide
    rw [h1]
    exact List.filter_sublist _
  have h2 : [AIProviderType.gemini, AIProviderType.openai, AIProviderType.anthropic,
      AIProviderType.ollama] ++ [AIProviderType.local] = providersOrder := by decide
  exact h2 ▸ List.Sublist.append hmid (List.Sublist.refl _)

/-- Witness for the C7 theorem at a keyless client in the all-down world. -/
theorem automatic_short_circuit_witness :
    List.Sublist (freshClient.chatTrace wAllDown "hi" [] none).2 providersOrder
    ∧ (∀ p ∈ (freshClient.chatTrace wAllDown "hi" [] none).2.dropLast,
        (providerChat wAllDown "hi" (resolve_system_prompt freshClient none) p).success = false)
    ∧ (freshClient.chatTrace wAllDown "hi" [] none).2.countP
        (fun p => (providerChat wAllDown "hi" (resolve_system_prompt freshClient none) p).success) ≤ 1 :=
  automatic_short_circuit freshClient wAllDown "hi" [] none rfl

/-- The failure lines the automatic loop accumulates over a provider list:
one line per available non-local provider, in priority order. -/
def cloudFailureLines (s : AIClient) (w : World) (prompt sys : String)
    (ps : List AIProviderType) : List String :=
  (ps.filter (fun p => is_available s w p && !(p == AIProviderType.local))).map
    (failureLine w prompt sys)

/-- The terminal local-fallback envelope, annotated with the failure note
exactly when failure lines were accumulated: the base case of the loop. -/
def annotatedLocal (w : World) (prompt sys : String) (failures : List String) : AIResponse :=
  let resp := localFallbackChat w.kb prompt sys
  if failures.isEmpty then resp
  else { resp with content :=
    "(Local Fallback) " ++ resp.content ++ "\n\nNote: Cloud providers failed:\n- " ++
      String.intercalate "\n- " failures }

/-- Unfolding of the accumulated failure lines over a cons cell. -/
theorem cloudFailureLines_cons (s : AIClient) (w : World) (prompt sys : String)
    (p : AIProviderType) (rest : List AIProviderType) :
    cloudFailureLines s w prompt sys (p :: rest)
      = if is_available s w p && !(p == AIProviderType.local)
        then failureLine w prompt sys p :: cloudFailureLines s w prompt sys rest
        else cloudFailureLines s w prompt sys rest := by
  simp only [cloudFailureLines, List.filter_cons]
  by_cases h : (is_available s w p && !(p == AIProviderType.local)) = true
  · simp [h]
  · simp only [Bool.not_eq_true] at h
    simp [h]

/-- When every available non-local provider fails, the automatic loop returns
the local fallback envelope, annotated with the accumulated failure lines. -/
theorem tryProviders_all_fail_content (s : AIClient) (w : World) (prompt sys : String) :
    ∀ (ps : List AIProviderType) (failures : List String),
      (∀ p ∈ ps, p ≠ AIProviderType.local → is_available s w p = true →
        (providerChat w prompt sys p).success = false) →
      (tryProvidersTrace s w prompt sys ps failures).1 =
        annotatedLocal w prompt sys (failures ++ cloudFailureLines s w prompt sys ps) := by
  intro ps
  induction ps with
  | nil =>
    intro failures _
    simp only [cloudFailureLines, List.filter_nil, List.map_nil, List.append_nil]
    rfl
  | cons p rest ih =>
    intro failures hall
    rw [cloudFailureLines_cons]
    simp only [tryProvidersTrace]
    by_cases h : (is_available s w p && !(p == AIProviderType.local)) = true
    · have hav : is_available s w p = true := (Bool.and_eq_true _ _ |>.mp h).1
      have hpl : p ≠ AIProviderType.local := by
        intro he
        have := (Bool.and_eq_true _ _ |>.mp h).2
        rw [he] at this
        simp at this
      have hfail : (providerChat w prompt sys p).success = false :=
        hall p (List.mem_cons_self p rest) hpl hav
      simp only [h, if_true, hfail, Bool.false_eq_true, if_false]
      rw [ih (failures ++ [failureLine w prompt sys p])
        (fun q hq => hall q (List.mem_cons_of_mem p hq))]
      simp only [List.append_assoc, List.singleton_append]
    · simp only [Bool.not_eq_true] at h
      simp only [h, Bool.false_eq_true, if_false]
      exact ih failures (fun q hq => hall q (List.mem_cons_of_mem p hq))

/-- Client with only an OpenAI key stored. -/
def sOpenaiOnly : AIClient := { openaiSt := { apiKey := some "k" } }

/-- World where the OpenAI call fails with HTTP 500 and everything else is
down, while the knowledge base answers. -/
def wOpenaiFails : World :=
  { geminiHttp := .exception "x"
    openaiHttp := .response 500 { extractedContent := none, extractionError := "e", rawText := "boom" }
    anthropicHttp := .exception "x"
    ollamaHttp := .exception "x"
    ollamaProbe := .fault "refused"
    kb := fun _ _ => .ok "KB answer" }

/-- C8 counterexample: the failure note naming the tried backends is appended
after the offline content, not prefixed before it: the resulting content does
not end with the offline answer, which a prefixed note would preserve as the
tail. -/
theorem offline_note_position_counterexample :
    (AIClient.chat sOpenaiOnly wOpenaiFails "hi" [] none).content
      = "(Local Fallback) KB answer\n\nNote: Cloud providers failed:\n- openai: HTTP 500: boom"
    ∧ List.isSuffixOf "KB answer".data
        (AIClient.chat sOpenaiOnly wOpenaiFails "hi" [] none).content.data = false :=
  ⟨rfl, by decide⟩

/-- C8 amended: when no non-offline adapter succeeds and at least one
available adapter produced a failure line, the returned envelope comes from
the local fallback and its content is the offline answer wrapped with the
Local Fallback marker in front and, appended after it, a note listing each
backend kind that was tried together with the error it returned. -/
theorem offline_note_lists_failures (s : AIClient) (w : World) (prompt : String)
    (context : List ChatMsg) (sysPrompt : Option String)
    (hov : s.activeOverride = none)
    (hall : ∀ p : AIProviderType, p ≠ AIProviderType.local →
      is_available s w p = true →
      (providerChat w prompt (resolve_system_prompt s sysPrompt) p).success = false)
    (hsome : cloudFailureLines s w prompt (resolve_system_prompt s sysPrompt)
      providersOrder ≠ []) :
    (s.chat w prompt context sysPrompt).content
      = "(Local Fallback) "
        ++ (localFallbackChat w.kb prompt (resolve_system_prompt s sysPrompt)).content
        ++ "\n\nNote: Cloud providers failed:\n- "
        ++ String.intercalate "\n- "
            (cloudFailureLines s w prompt (resolve_system_prompt s sysPrompt) providersOrder)
    ∧ (s.chat w prompt context sysPrompt).provider = AIProviderType.local := by
  simp only [AIClient.chat, AIClient.chatTrace, hov]
  rw [tryProviders_all_fail_content s w prompt (resolve_system_prompt s sysPrompt)
    providersOrder [] (fun p _ hpl hav => hall p hpl hav)]
  simp only [List.nil_append, annotatedLocal]
  have hne : (cloudFailureLines s w prompt (resolve_system_prompt s sysPrompt)
      providersOrder).isEmpty = false := by
    rw [List.isEmpty_eq_false]
    exact hsome
  rw [hne]
  simp only [Bool.false_eq_true, if_false]
  exact ⟨trivial, (localFallbackChat_success w.kb prompt (resolve_system_prompt s sysPrompt)).2⟩

/-- Witness for the amended C8 theorem in the OpenAI-fails scenario. -/
theorem offline_note_lists_failures_witness :
    (AIClient.chat sOpenaiOnly wOpenaiFails "hi" [] none).content
      = "(Local Fallback) "
        ++ (localFallbackChat wOpenaiFails.kb "hi" (resolve_system_prompt sOpenaiOnly none)).content
        ++ "\n\nNote: Cloud providers failed:\n- "
        ++ String.intercalate "\n- "
            (cloudFailureLines sOpenaiOnly wOpenaiFails "hi"
              (resolve_system_prompt sOpenaiOnly none) providersOrder)
    ∧ (AIClient.chat sOpenaiOnly wOpenaiFails "hi" [] none).provider = AIProviderType.local :=
  offline_note_lists_failures sOpenaiOnly wOpenaiFails "hi" [] none rfl
    (fun p hpl hav => by
      cases p
      · exact Bool.noConfusion (hav : (false : Bool) = true)
      · exact Bool.noConfusion (hav : (false : Bool) = true)
      · exact rfl
      · exact Bool.noConfusion (hav : (false : Bool) = true)
      · exact absurd rfl hpl)
    (by decide)

/-- The wire name of each kind resolves back to that kind. -/
theorem ofString_value (k : AIProviderType) : AIProviderType.ofString k.value = some k := by
  cases k <;> rfl

/-- configure_provider on a known kind name: apply setup, then pin and
succeed exactly when the adapter is available afterwards. -/
theorem configure_provider_known (s : AIClient) (w : World) (k : AIProviderType)
    (key : String) :
    s.configure_provider w k.value key
      = if is_available (s.setupProvider k key) w k
        then (true, { s.setupProvider k key with activeOverride := some k })
        else (false, s.setupProvider k key) := by
  cases k <;> rfl

/-- C6: configure applies the key to the named adapter through its setup
function alone (the stored adapter states never depend on the network
oracle), and when the adapter is available afterwards the call returns true,
pins the dispatch to that kind in the same step, and a subsequent status
probe reports that kind available. -/
theorem configure_stores_key_and_pins (s : AIClient) (w : World) (k : AIProviderType)
    (key : String) :
    ((s.configure_provider w k.value key).2.geminiSt = (s.setupProvider k key).geminiSt
      ∧ (s.configure_provider w k.value key).2.openaiSt = (s.setupProvider k key).openaiSt
      ∧ (s.configure_provider w k.value key).2.anthropicSt = (s.setupProvider k key).anthropicSt
      ∧ (s.configure_provider w k.value key).2.ollamaSt = (s.setupProvider k key).ollamaSt)
    ∧ (is_available (s.setupProvider k key) w k = true →
        (s.configure_provider w k.value key).1 = true
        ∧ (s.configure_provider w k.value key).2.activeOverride = some k
        ∧ (AIClient.get_provider_status (s.configure_provider w k.value key).2 w).lookup k.value
            = some true) := by
  rw [configure_provider_known]
  by_cases hav : is_available (s.setupProvider k key) w k = true
  · rw [if_pos hav]
    refine ⟨⟨rfl, rfl, rfl, rfl⟩, fun _ => ⟨rfl, rfl, ?_⟩⟩
    rw [status_lookup]
    rw [is_available_override]
    rw [hav]
  · rw [if_neg hav]
    exact ⟨⟨rfl, rfl, rfl, rfl⟩, fun hcon => absurd hcon hav⟩

/-- Witness for the C6 theorem: configuring OpenAI with a key on a fresh
client pins OpenAI and status reports it available. -/
theorem configure_stores_key_and_pins_witness :
    is_available (freshClient.setupProvider AIProviderType.openai "sk-1") wAllDown
      AIProviderType.openai = true
    ∧ (freshClient.configure_provider wAllDown "openai" "sk-1").1 = true
    ∧ (freshClient.configure_provider wAllDown "openai" "sk-1").2.activeOverride
        = some AIProviderType.openai
    ∧ (AIClient.get_provider_status
        (freshClient.configure_provider wAllDown "openai" "sk-1").2 wAllDown).lookup "openai"
        = some true :=
  ⟨rfl,
   (configure_stores_key_and_pins freshClient wAllDown AIProviderType.openai "sk-1").2 rfl |>.1,
   (configure_stores_key_and_pins freshClient wAllDown AIProviderType.openai "sk-1").2 rfl |>.2.1,
   (configure_stores_key_and_pins freshClient wAllDown AIProviderType.openai "sk-1").2 rfl |>.2.2⟩

/-- C10: a name that resolves to no backend kind makes both switch and
configure return false and leave the whole client state, override and stored
credentials included, unchanged. -/
theorem unknown_name_is_noop (s : AIClient) (w : World) (name key : String)
    (h : AIProviderType.ofString name = none) :
    s.switch_to_provider w name = (false, s)
    ∧ s.configure_provider w name key = (false, s) := by
  constructor
  · simp only [AIClient.switch_to_provider, h]
  · simp only [AIClient.configure_provider, h]

/-- Witness for the C10 theorem at a concrete unknown name. -/
theorem unknown_name_is_noop_witness :
    AIProviderType.ofString "turbollm" = none
    ∧ AIClient.switch_to_provider freshClient wAllDown "turbollm" = (false, freshClient)
    ∧ AIClient.configure_provider freshClient wAllDown "turbollm" "k" = (false, freshClient) :=
  ⟨by decide,
   (unknown_name_is_noop freshClient wAllDown "turbollm" "k" (by decide)).1,
   (unknown_name_is_noop freshClient wAllDown "turbollm" "k" (by decide)).2⟩

/-- One operation step never clears the override: it either keeps it or sets
a new pin. -/
theorem stepClient_override_mono (s : AIClient) (op : Op)
    (h : s.activeOverride.isSome = true) : (stepClient s op).activeOverride.isSome = true := by
  cases op with
  | chatOp w prompt context sysPrompt => exact h
  | switchOp w n =>
    simp only [stepClient, AIClient.switch_to_provider]
    cases hof : AIProviderType.ofString n with
    | none => exact h
    | some t =>
      by_cases hav : is_available s w t = true
      · simp only [hav, if_true]
        rfl
      · simp only [Bool.not_eq_true] at hav
        simp only [hav, Bool.false_eq_true, if_false]
        exact h
  | configOp w n key =>
    simp only [stepClient, AIClient.configure_provider]
    cases hof : AIProviderType.ofString n with
    | none => exact h
    | some t =>
      by_cases hav : is_available (s.setupProvider t key) w t = true
      · simp only [hav, if_true]
        rfl
      · simp only [Bool.not_eq_true] at hav
        simp only [hav, Bool.false_eq_true, if_false]
        simp only [AIClient.setupProvider]
        cases t <;> exact h

/-- C5: over any sequence of chat, switch and configure operations, the
dispatch override moves from automatic to pinned only through a switch that
returned true on an available target or a configure that returned true with
the adapter available after setup; a switch whose resolved target is
unavailable returns false and leaves the client unchanged; and once pinned
the override is never cleared back to automatic. -/
theorem dispatch_mode_transitions :
    (∀ (s : AIClient) (op : Op) (k : AIProviderType),
      s.activeOverride = none → (stepClient s op).activeOverride = some k →
        (∃ w n, op = Op.switchOp w n ∧ (s.switch_to_provider w n).1 = true
          ∧ AIProviderType.ofString n = some k ∧ is_available s w k = true)
        ∨ (∃ w n key, op = Op.configOp w n key ∧ (s.configure_provider w n key).1 = true
          ∧ AIProviderType.ofString n = some k
          ∧ is_available (s.setupProvider k key) w k = true))
    ∧ (∀ (s : AIClient) (w : World) (n : String) (k : AIProviderType),
        AIProviderType.ofString n = some k → is_available s w k = false →
          s.switch_to_provider w n = (false, s))
    ∧ (∀ (s : AIClient) (ops : List Op),
        s.activeOverride.isSome = true → (runOps s ops).activeOverride.isSome = true) := by
  refine ⟨?_, ?_, ?_⟩
  · intro s op k h0 h1
    cases op with
    | chatOp w prompt context sysPrompt =>
      have h1b : s.activeOverride = some k := h1
      rw [h0] at h1b
      exact Option.noConfusion h1b
    | switchOp w n =>
      cases hof : AIProviderType.ofString n with
      | none =>
        have hsw : s.switch_to_provider w n = (false, s) := by
          simp only [AIClient.switch_to_provider, hof]
        have h1b : s.activeOverride = some k := by
          have hst : (stepClient s (Op.switchOp w n)).activeOverride
              = (s.switch_to_provider w n).2.activeOverride := rfl
          rw [hst, hsw] at h1
          exact h1
        rw [h0] at h1b
        exact Option.noConfusion h1b
      | some t =>
        by_cases hav : is_available s w t = true
        · have hsw : s.switch_to_provider w n
              = (true, { s with activeOverride := some t }) := by
            simp only [AIClient.switch_to_provider, hof, if_pos hav]
          have hst : (stepClient s (Op.switchOp w n)).activeOverride
              = (s.switch_to_provider w n).2.activeOverride := rfl
          rw [hst, hsw] at h1
          have hkt : t = k := Option.some.inj h1
          subst hkt
          exact Or.inl ⟨w, n, rfl, by rw [hsw], hof, hav⟩
        · have hsw : s.switch_to_provider w n = (false, s) := by
            simp only [AIClient.switch_to_provider, hof, if_neg hav]
          have hst : (stepClient s (Op.switchOp w n)).activeOverride
              = (s.switch_to_provider w n).2.activeOverride := rfl
          rw [hst, hsw] at h1
          have h1b : s.activeOverride = some k := h1
          rw [h0] at h1b
          exact Option.noConfusion h1b
    | configOp w n key =>
      cases hof : AIProviderType.ofString n with
      | none =>
        have hcf : s.configure_provider w n key = (false, s) := by
          simp only [AIClient.configure_provider, hof]
        have hst : (stepClient s (Op.configOp w n key)).activeOverride
            = (s.configure_provider w n key).2.activeOverride := rfl
        rw [hst, hcf] at h1
        have h1b : s.activeOverride = some k := h1
        rw [h0] at h1b
        exact Option.noConfusion h1b
      | some t =>
        by_cases hav : is_available (s.setupProvider t key) w t = true
        · have hcf : s.configure_provider w n key
              = (true, { s.setupProvider t key with activeOverride := some t }) := by
            simp only [AIClient.configure_provider, hof, if_pos hav]
          have hst : (stepClient s (Op.configOp w n key)).activeOverride
              = (s.configure_provider w n key).2.activeOverride := rfl
          rw [hst, hcf] at h1
          have hkt : t = k := Option.some.inj h1
          subst hkt
          exact Or.inr ⟨w, n, key, rfl, by rw [hcf], hof, hav⟩
        · have hcf : s.configure_provider w n key = (false, s.setupProvider t key) := by
            simp only [AIClient.configure_provider, hof, if_neg hav]
          have hst : (stepClient s (Op.configOp w n key)).activeOverride
              = (s.configure_provider w n key).2.activeOverride := rfl
          rw [hst, hcf] at h1
          have hov2 : (s.setupProvider t key).activeOverride = s.activeOverride := by
            cases t <;> rfl
          rw [hov2] at h1
          rw [h0] at h1
          exact Option.noConfusion h1
  · intro s w n k hof hav
    have hneg : ¬ is_available s w k = true := by
      rw [hav]
      exact Bool.false_ne_true
    simp only [AIClient.switch_to_provider, hof, if_neg hneg]
  · intro s ops
    induction ops generalizing s with
    | nil => exact fun h => h
    | cons op rest ih =>
      intro h
      exact ih (stepClient s op) (stepClient_override_mono s op h)

/-- Client with an OpenAI key stored and no pin. -/
def clientWithOpenAIKey : AIClient := { openaiSt := { apiKey := some "sk-1" } }

/-- Witness for the C5 theorem: a successful switch from automatic, a failed
switch on an unavailable target, and a pinned client staying pinned across an
operation sequence. -/
theorem dispatch_mode_transitions_witness :
    ((∃ w n, Op.switchOp wAllDown "openai" = Op.switchOp w n
        ∧ (clientWithOpenAIKey.switch_to_provider w n).1 = true
        ∧ AIProviderType.ofString n = some AIProviderType.openai
        ∧ is_available clientWithOpenAIKey w AIProviderType.openai = true)
      ∨ (∃ w n key, Op.switchOp wAllDown "openai" = Op.configOp w n key
        ∧ (clientWithOpenAIKey.configure_provider w n key).1 = true
        ∧ AIProviderType.ofString n = some AIProviderType.openai
        ∧ is_available (clientWithOpenAIKey.setupProvider AIProviderType.openai key) w
            AIProviderType.openai = true))
    ∧ freshClient.switch_to_provider wAllDown "openai" = (false, freshClient)
    ∧ (runOps pinnedGeminiDown
        [Op.switchOp wAllDown "nope", Op.chatOp wAllDown "hi" [] none]).activeOverride.isSome
        = true :=
  ⟨dispatch_mode_transitions.1 clientWithOpenAIKey (Op.switchOp wAllDown "openai")
      AIProviderType.openai rfl rfl,
   dispatch_mode_transitions.2.1 freshClient wAllDown "openai" AIProviderType.openai rfl rfl,
   dispatch_mode_transitions.2.2 pinnedGeminiDown
     [Op.switchOp wAllDown "nope", Op.chatOp wAllDown "hi" [] none] rfl⟩

end ClioraOps
